import Mathlib

/-!
Shallow embedding of the ONCOGRAPH knowledge-graph service
(`frontend/src/services/knowledgeGraphService.ts`, bundled into the
`App.tsx` sources) and of the chat orchestrator `handleSendMessage`
(`frontend/src/App.tsx`).  Strings are Lean `String`s, JS arrays are
Lean lists, the JS `Set<string>` of collected node ids is a `List String`
with set-style insertion, and the per-type counter object is a function
`String → Nat` defaulting to zero.  Imperative loops become folds over
an explicit selection state.
-/

namespace OncoGraph

/-- Boolean test that `needle` occurs as a contiguous run inside `hay`. -/
def charsInfixOf (needle : List Char) : List Char → Bool
  | [] => needle.isEmpty
  | c :: t => needle.isPrefixOf (c :: t) || charsInfixOf needle t

/-- JS `haystack.includes(needle)` : substring containment. -/
def jsIncludes (s sub : String) : Bool := charsInfixOf sub.data s.data

/-- JS `toLowerCase()` over the character list (the `String.map` of core
is opaque to kernel reduction, so the list form is used throughout). -/
def strLower (s : String) : String := String.mk (s.data.map Char.toLower)

/-- JS `toUpperCase()` over the character list. -/
def strUpper (s : String) : String := String.mk (s.data.map Char.toUpper)

/-- JS `startsWith` over the character list. -/
def strStartsWith (s pre : String) : Bool := pre.data.isPrefixOf s.data

/-- Data model of `KnowledgeNode` : `properties?.description` and
`properties?.aliases` are the only properties the service reads, so they
are modelled as optional fields. -/
structure Node where
  id : String
  label : String
  type : String
  color : String := ""
  description : Option String := none
  aliases : Option (List String) := none
deriving Repr, DecidableEq

/-- Data model of `KnowledgeRelation`. -/
structure Edge where
  source : String
  target : String
  relation : String
deriving Repr, DecidableEq

/-- Data model of `KnowledgeGraph` (the `meta` object is reduced to its
description string, the only part the spec's data model mentions). -/
structure KnowledgeGraph where
  meta : String := ""
  nodes : List Node
  edges : List Edge
deriving Repr, DecidableEq

/-- Result shape of `queryKnowledgeGraph` / `handleSpecificGeneRequest`
(without the constant `context` string, which is passed separately to the
formatter). -/
structure QueryResult where
  nodes : List Node
  relations : List Edge
deriving Repr, DecidableEq

/-- The `singularRequests` phrase list of `analyzeQueryIntent`. -/
def singularRequests : List String :=
  ["one gene", "a gene", "single gene", "name the gene",
   "which gene", "what gene", "any gene", "one specific gene"]

/-- The `knownGenes` allow-list of `analyzeQueryIntent`. -/
def knownGenes : List String :=
  ["FGFR1", "MYC", "EGFR", "KRAS", "TP53", "BRCA1", "BRCA2", "HER2", "ERBB2",
   "PIK3CA", "ALK", "ROS1", "RET", "MET", "BRAF", "APC", "AR", "NRAS",
   "CDKN2A", "SMAD4", "MLH1"]

/-- `knownGenes.filter(gene => query.toUpperCase().includes(gene) ||
query.toLowerCase().includes(gene.toLowerCase()))`. -/
def matchedKnownGenes (query : String) : List String :=
  knownGenes.filter fun gene =>
    jsIncludes (strUpper query) gene || jsIncludes (strLower query) (strLower gene)

/-- `query.replace(/[^a-z0-9]/g, '')`. -/
def stripNonAlnum (s : String) : String :=
  String.mk (s.data.filter fun c =>
    (97 ≤ c.toNat && c.toNat ≤ 122) || (48 ≤ c.toNat && c.toNat ≤ 57))

/-- The `biologicalTerms` list of `extractSpecificTerms`. -/
def biologicalTerms : List String :=
  ["egfr", "kras", "tp53", "brca1", "brca2", "her2", "erbb2", "pik3ca", "alk",
   "ros1", "ret", "met", "braf", "fgfr1", "myc",
   "pi3k", "akt", "mapk", "ras", "p53", "wnt", "notch", "jak", "stat", "mtor",
   "nf-kb", "fgfr",
   "trastuzumab", "osimertinib", "gefitinib", "erlotinib", "crizotinib",
   "lapatinib", "tamoxifen", "olaparib",
   "lung cancer", "breast cancer", "nsclc", "sclc",
   "pathway", "signaling", "mutation", "inhibitor", "receptor", "kinase"]

/-- `extractSpecificTerms(query)`. -/
def extractSpecificTerms (query : String) : List String :=
  biologicalTerms.filter fun term =>
    jsIncludes query term || jsIncludes term (stripNonAlnum query)

/-- The cancer-type phrases tested for `contextEntity = 'disease'`. -/
def cancerPhrases : List String :=
  ["breast cancer", "lung cancer", "colorectal cancer", "pancreatic cancer",
   "prostate cancer", "melanoma", "ovarian cancer"]

/-- Output shape of `analyzeQueryIntent`. -/
structure QueryIntent where
  wantedTypes : List String
  contextEntity : String
  includeContext : Bool
  specificGenes : List String
  limitToOne : Bool
deriving Repr, DecidableEq

/-- The `limitToOne` detection of `analyzeQueryIntent`. -/
def limitToOneOf (query : String) : Bool :=
  singularRequests.any fun phrase => jsIncludes (strLower query) phrase

/-- `specificGenes` : matched allow-list symbols, truncated to the first
one when a singular request matched more than one. -/
def specificGenesOf (query : String) : List String :=
  if limitToOneOf query && 1 < (matchedKnownGenes query).length
  then (matchedKnownGenes query).take 1
  else matchedKnownGenes query

/-- The `(wantedTypes, includeContext)` pair of `analyzeQueryIntent`,
built statement by statement through shadowed lets. -/
def wantedTypesOf (query : String) : List String × Bool :=
  let specificGenes := specificGenesOf query
  let wt : List String := []
  let ic := false
  let (wt, ic) :=
    if jsIncludes query "gene" || jsIncludes query "genes" || 0 < specificGenes.length
    then (wt ++ ["gene"], true) else (wt, ic)
  let (wt, ic) :=
    if jsIncludes query "drug" || jsIncludes query "drugs" || jsIncludes query "treatment"
       || jsIncludes query "therapy" || jsIncludes query "associated drugs"
    then (wt ++ ["drug"], true) else (wt, ic)
  let (wt, ic) :=
    if jsIncludes query "pathway" || jsIncludes query "pathways"
       || jsIncludes query "signaling" || jsIncludes query "associated pathways"
    then (wt ++ ["pathway"], true) else (wt, ic)
  let (wt, ic) :=
    if jsIncludes query "biomarker" || jsIncludes query "biomarkers"
       || jsIncludes query "marker" || jsIncludes query "associated biomarkers"
    then (wt ++ ["biomarker"], true) else (wt, ic)
  let (wt, ic) :=
    if 0 < specificGenes.length then
      (if wt.length = 0 then wt ++ ["gene", "pathway", "drug", "biomarker"] else wt, true)
    else (wt, ic)
  let (wt, ic) :=
    if wt.length = 0 then
      if jsIncludes query "target" || jsIncludes query "treatment" then
        (wt ++ ["drug", "gene"], ic)
      else if jsIncludes query "involve" || jsIncludes query "associated" then
        (wt ++ ["gene", "pathway"], ic)
      else
        (wt ++ ["gene", "pathway", "drug", "biomarker"], true)
    else (wt, ic)
  (wt, ic)

/-- The `contextEntity` classification of `analyzeQueryIntent`. -/
def contextEntityOf (query : String) : String :=
  if cancerPhrases.any fun p => jsIncludes query p then "disease"
  else if 0 < (specificGenesOf query).length then "specific"
  else if 0 < (extractSpecificTerms query).length then "specific"
  else "general"

/-- `analyzeQueryIntent(query)` : keyword / gene-symbol classification of
the (lower-cased) query, assembled from the component computations. -/
def analyzeQueryIntent (query : String) : QueryIntent :=
  { wantedTypes := (wantedTypesOf query).1,
    contextEntity := contextEntityOf query,
    includeContext := (wantedTypesOf query).2,
    specificGenes := specificGenesOf query,
    limitToOne := limitToOneOf query }

/-- Selection state threaded through the extraction loops: the collected
node array, the `Set<string>` of collected node ids, and the collected
relation array. -/
structure SelState where
  nodes : List Node
  ids : List String
  rels : List Edge
deriving Repr, DecidableEq

/-- The empty selection state the extraction routines start from. -/
def SelState.empty : SelState := ⟨[], [], []⟩

/-- `finalNodes.push(node); finalNodeIds.add(node.id)` : the paired push
used at every collection site of the service. -/
def SelState.addNode (st : SelState) (n : Node) : SelState :=
  { st with nodes := st.nodes ++ [n], ids := st.ids.insert n.id }

/-- Point update of the per-type counter object (`typeCount[t]++`). -/
def bump (counts : String → Nat) (t : String) : String → Nat :=
  fun s => if s = t then counts t + 1 else counts s

/-- `this.kg.nodes.find(n => n.id === i)`. -/
def findNodeById (kg : KnowledgeGraph) (i : String) : Option Node :=
  kg.nodes.find? fun n => n.id == i

/-- The endpoint of `r` opposite to `anchor`, when `anchor` is one of its
endpoints and that opposite endpoint resolves in the graph: the shared
`connectedNode` computation of the scanning loops. -/
def connectedTo (kg : KnowledgeGraph) (anchor : Node) (r : Edge) : Option Node :=
  if r.source == anchor.id then findNodeById kg r.target
  else if r.target == anchor.id then findNodeById kg r.source
  else none

/-- One step of the capped neighbor scan shared (verbatim, in the source)
by step 3 of `handleSpecificGeneRequest` and by `addLimitedConnections`:
add the connected node when its type is wanted, its id is new, and the
per-type counter is below `cap`. -/
def cappedScanStep (kg : KnowledgeGraph) (wantedTypes : List String) (cap : Nat)
    (gene : Node) (acc : SelState × (String → Nat)) (r : Edge) :
    SelState × (String → Nat) :=
  let (st, counts) := acc
  match connectedTo kg gene r with
  | none => acc
  | some cn =>
    if wantedTypes.contains cn.type && !st.ids.contains cn.id then
      if counts cn.type < cap then
        ({ st.addNode cn with rels := st.rels ++ [r] }, bump counts cn.type)
      else acc
    else acc

/-- Step 3 of `handleSpecificGeneRequest` : for each anchor gene scan all
edges, with one counter object shared across the anchors. -/
def hsgrScan (kg : KnowledgeGraph) (genes : List Node) (wantedTypes : List String)
    (cap : Nat) (st0 : SelState) : SelState :=
  (genes.foldl (fun acc gene => kg.edges.foldl (cappedScanStep kg wantedTypes cap gene) acc)
    (st0, fun _ => 0)).1

/-- `addLimitedConnections(gene, wantedTypes, ..., maxPerType)` : same loop
body as the step-3 scan, with a fresh counter object. -/
def addLimitedConnections (kg : KnowledgeGraph) (gene : Node) (wantedTypes : List String)
    (maxPerType : Nat) (st0 : SelState) : SelState :=
  (kg.edges.foldl (cappedScanStep kg wantedTypes maxPerType gene) (st0, fun _ => 0)).1

/-- The `diseaseGeneMap` table of `findGenesRelatedToContext`, in literal
key order. -/
def diseaseGeneMap : List (String × List String) :=
  [("breast cancer", ["BRCA1", "BRCA2", "ERBB2", "PIK3CA", "ESR1", "TP53"]),
   ("lung cancer", ["EGFR", "KRAS", "ALK", "ROS1", "MET", "BRAF"]),
   ("colorectal cancer", ["APC", "KRAS", "PIK3CA", "TP53", "MLH1"]),
   ("pancreatic cancer", ["KRAS", "TP53", "SMAD4", "PIK3CA"]),
   ("prostate cancer", ["AR", "TP53", "PIK3CA"]),
   ("melanoma", ["BRAF", "NRAS", "CDKN2A", "TP53"]),
   ("ovarian cancer", ["BRCA1", "BRCA2", "TP53", "PIK3CA"]),
   ("cancer", ["TP53", "KRAS", "EGFR", "MYC", "BRCA1"])]

/-- `findGenesRelatedToContext(context)` : first matching disease entry,
then the first of its configured genes that resolves to a gene node. -/
def findGenesRelatedToContext (kg : KnowledgeGraph) (context : String) : List Node :=
  let contextLower := strLower context
  match diseaseGeneMap.find? (fun p => jsIncludes contextLower p.1) with
  | none => []
  | some p =>
    match p.2.findSome? (fun geneName =>
        kg.nodes.find? fun node => node.type == "gene" && strUpper node.label == geneName) with
    | some g => [g]
    | none => []

/-- Step 1 of `handleSpecificGeneRequest` : gene nodes whose upper-cased
label is one of the requested names. -/
def targetGenesOf (kg : KnowledgeGraph) (geneNames : List String) : List Node :=
  kg.nodes.filter fun node => node.type == "gene" && geneNames.contains (strUpper node.label)

/-- `limitToOne ? targetGenes.slice(0, 1) : targetGenes`. -/
def genesToProcessOf (kg : KnowledgeGraph) (geneNames : List String)
    (limitToOne : Bool) : List Node :=
  if limitToOne then (targetGenesOf kg geneNames).take 1 else targetGenesOf kg geneNames

/-- Step 2 of `handleSpecificGeneRequest` : add biomarker nodes whose
label coincides with a requested gene name. -/
def addMatchingBiomarkers (kg : KnowledgeGraph) (geneNames : List String)
    (st : SelState) : SelState :=
  kg.nodes.foldl (fun st node =>
    if node.type == "biomarker" && geneNames.contains (strUpper node.label)
        && !st.ids.contains node.id
    then st.addNode node else st) st

/-- Final packaging shared by both extraction paths: keep only relations
whose two endpoints are in the collected id set. -/
def mkResult (st : SelState) : QueryResult :=
  { nodes := st.nodes,
    relations := st.rels.filter fun r =>
      st.ids.contains r.source && st.ids.contains r.target }

/-- Step 1 tail of `handleSpecificGeneRequest` : push the anchor genes. -/
def hsgrBase (kg : KnowledgeGraph) (geneNames : List String)
    (limitToOne : Bool) : SelState :=
  (genesToProcessOf kg geneNames limitToOne).foldl SelState.addNode SelState.empty

/-- The `targetGenes.length === 0` block of `handleSpecificGeneRequest` :
disease-related single-gene fallback through the static table. -/
def hsgrFallback (kg : KnowledgeGraph) (geneNames wantedTypes : List String)
    (limitToOne : Bool) : SelState :=
  if (targetGenesOf kg geneNames).length = 0 then
    if limitToOne && wantedTypes.contains "gene" then
      match findGenesRelatedToContext kg (String.intercalate " " geneNames) with
      | [] => hsgrBase kg geneNames limitToOne
      | selectedGene :: _ =>
        addLimitedConnections kg selectedGene wantedTypes 2
          ((hsgrBase kg geneNames limitToOne).addNode selectedGene)
    else hsgrBase kg geneNames limitToOne
  else hsgrBase kg geneNames limitToOne

/-- Steps 2 and 3 of `handleSpecificGeneRequest` : same-name biomarkers,
then the capped connected-entity scan. -/
def hsgrCollected (kg : KnowledgeGraph) (geneNames wantedTypes : List String)
    (limitToOne : Bool) : SelState :=
  let st2 :=
    if wantedTypes.contains "biomarker" then
      addMatchingBiomarkers kg geneNames (hsgrFallback kg geneNames wantedTypes limitToOne)
    else hsgrFallback kg geneNames wantedTypes limitToOne
  hsgrScan kg (genesToProcessOf kg geneNames limitToOne) wantedTypes
    (if limitToOne then 2 else 3) st2

/-- `handleSpecificGeneRequest(geneNames, wantedTypes, limitToOne)`. -/
def handleSpecificGeneRequest (kg : KnowledgeGraph) (geneNames : List String)
    (wantedTypes : List String) (limitToOne : Bool) : QueryResult :=
  if (targetGenesOf kg geneNames).length = 0
      && (hsgrFallback kg geneNames wantedTypes limitToOne).nodes.length = 0 then
    { nodes := [], relations := [] }
  else
    mkResult (hsgrCollected kg geneNames wantedTypes limitToOne)

/-- The anchor search of `queryKnowledgeGraph` step 3 : the first node whose
label (or an alias) occurs in the query, gated by the context kind. -/
def findTargetEntity (kg : KnowledgeGraph) (queryLower : String)
    (intent : QueryIntent) : Option Node :=
  kg.nodes.find? fun node =>
    let nodeLabel := strLower node.label
    (jsIncludes queryLower nodeLabel
      || (node.aliases.getD []).any fun a => jsIncludes queryLower (strLower a)) &&
    ((intent.contextEntity == "disease" && node.type == "disease") ||
     (intent.contextEntity == "specific" && 2 < nodeLabel.length
        && jsIncludes queryLower nodeLabel))

/-- One step of the anchored-entity neighbor scan of `queryKnowledgeGraph`,
capped at 4 per type and 10 nodes in total. -/
def anchoredStep (kg : KnowledgeGraph) (target : Node) (wantedTypes : List String)
    (acc : SelState × (String → Nat)) (r : Edge) : SelState × (String → Nat) :=
  let (st, counts) := acc
  match connectedTo kg target r with
  | none => acc
  | some cn =>
    if wantedTypes.contains cn.type && !st.ids.contains cn.id then
      if counts cn.type < 4 && st.nodes.length < 10 then
        ({ st.addNode cn with rels := st.rels ++ [r] }, bump counts cn.type)
      else acc
    else acc

/-- The anchored-entity scan over all edges, started from the empty state
with a fresh counter object. -/
def anchoredScan (kg : KnowledgeGraph) (target : Node)
    (wantedTypes : List String) : SelState :=
  (kg.edges.foldl (anchoredStep kg target wantedTypes) (SelState.empty, fun _ => 0)).1

/-- First pass of `findDirectMatches` : every node whose (lower-cased)
label of length > 2 occurs in the query. -/
def directLabelMatches (kg : KnowledgeGraph) (query : String) : List Node :=
  kg.nodes.filter fun node =>
    jsIncludes query (strLower node.label) && 2 < (strLower node.label).length

/-- One step of the second pass of `findDirectMatches` : record a relation
touching a collected node and pull in its missing target endpoint, while
under the 8-node total. -/
def directExpandStep (kg : KnowledgeGraph) (st : SelState) (r : Edge) : SelState :=
  if (st.ids.contains r.source || st.ids.contains r.target) && st.nodes.length < 8 then
    let st := { st with rels := st.rels ++ [r] }
    if st.ids.contains r.source && !st.ids.contains r.target then
      match findNodeById kg r.target with
      | some targetNode => st.addNode targetNode
      | none => st
    else st
  else st

/-- `findDirectMatches(query)` : substring pass then one edge-expansion
pass (the latter only when the first pass collected something). -/
def findDirectMatches (kg : KnowledgeGraph) (query : String) : SelState :=
  let base := (directLabelMatches kg query).foldl SelState.addNode SelState.empty
  if 0 < base.nodes.length then kg.edges.foldl (directExpandStep kg) base else base

/-- Step 3 of `queryKnowledgeGraph` : neighbors of the anchor entity of
the requested types (when an anchor was found and types are wanted), plus
the anchor itself when context is to be included. -/
def anchoredState (kg : KnowledgeGraph) (queryLower : String)
    (intent : QueryIntent) : SelState :=
  match findTargetEntity kg queryLower intent with
  | some target =>
    if 0 < intent.wantedTypes.length then
      let st := anchoredScan kg target intent.wantedTypes
      if intent.includeContext && !st.ids.contains target.id then st.addNode target else st
    else SelState.empty
  | none => SelState.empty

/-- `queryKnowledgeGraph(userQuery)` : intent analysis, the explicit-gene
path, otherwise the anchored scan with the direct-match fallback, and the
final referential-closure filter on the collected relations. -/
def queryKnowledgeGraph (kg : KnowledgeGraph) (userQuery : String) : QueryResult :=
  let queryLower := strLower userQuery
  let intent := analyzeQueryIntent queryLower
  if 0 < intent.specificGenes.length then
    handleSpecificGeneRequest kg intent.specificGenes intent.wantedTypes intent.limitToOne
  else
    let st := anchoredState kg queryLower intent
    let st := if st.nodes.length = 0 then findDirectMatches kg queryLower else st
    mkResult st

/-- `relation.replace('_', ' ')` : JS `String.replace` with a string
pattern rewrites only the first occurrence. -/
def replaceFirstUnderscore : List Char → List Char
  | [] => []
  | c :: cs => if c = '_' then ' ' :: cs else c :: replaceFirstUnderscore cs

/-- One `ENTITIES:` line of `formatKnowledgeForAI` (JS `||` fallbacks
treat the empty string as falsy). -/
def formatNodeLine (node : Node) : String :=
  "- " ++ strUpper (if node.type.isEmpty then "UNKNOWN" else node.type)
    ++ ": " ++ (if node.label.isEmpty then "Unknown" else node.label)
    ++ " (ID: " ++ (if node.id.isEmpty then "Unknown" else node.id) ++ ")"
    ++ (match node.description with
        | some d => if d.isEmpty then "" else " - " ++ d
        | none => "")
    ++ (match node.aliases with
        | some a => " - Also known as: " ++ String.intercalate ", " a
        | none => "")
    ++ "\n"

/-- One `RELATIONSHIPS:` line of `formatKnowledgeForAI`. -/
def formatRelationLine (nodes : List Node) (r : Edge) : String :=
  let sourceNode := nodes.find? fun n => n.id == r.source
  let targetNode := nodes.find? fun n => n.id == r.target
  let relationLabel :=
    if r.relation.isEmpty then "related to"
    else String.mk (replaceFirstUnderscore r.relation.data)
  "- " ++ (match sourceNode with | some n => n.label | none => r.source)
    ++ " " ++ relationLabel ++ " "
    ++ (match targetNode with | some n => n.label | none => r.target) ++ "\n"

/-- `formatKnowledgeForAI(nodes, relations, context)`. -/
def formatKnowledgeForAI (nodes : List Node) (relations : List Edge)
    (context : String) : String :=
  if nodes.length = 0 && relations.length = 0 then
    "No relevant information found in the knowledge graph."
  else
    let s := context ++ "\n\nRELEVANT KNOWLEDGE FROM GRAPH:\n\n"
    let s :=
      if 0 < nodes.length then
        s ++ "ENTITIES:\n" ++ nodes.foldl (fun acc n => acc ++ formatNodeLine n) "" ++ "\n"
      else s
    if 0 < relations.length then
      s ++ "RELATIONSHIPS:\n"
        ++ relations.foldl (fun acc r => acc ++ formatRelationLine nodes r) ""
    else s

/-- A chat transcript entry (`Message`), with the timestamp reduced to the
`Date.now()` tick used for the id. -/
structure Message where
  id : String
  text : String
  isUser : Bool
  graphData : Option QueryResult := none
deriving Repr, DecidableEq

/-- A thrown JS error as the catch block of `handleSendMessage` sees it. -/
structure JsError where
  message : String
  status : Option Nat := none
deriving Repr, DecidableEq

/-- The literal placeholder value the key is compared against. -/
def placeholderKey : String := "your_openai_api_key_here"

/-- `!apiKey || apiKey === 'your_openai_api_key_here'` (an absent key and
the empty string are both falsy). -/
def keyMissing : Option String → Bool
  | none => true
  | some s => s.isEmpty || s == placeholderKey

/-- The configuration-error text thrown when the key is missing. -/
def configErrorText : String :=
  "OpenAI API key is not configured. Please check your .env file and set VITE_OPENAI_API_KEY."

/-- The error text thrown on a key without the literal prefix. -/
def formatErrorText : String :=
  "Invalid OpenAI API key format. The key should start with \"sk-\"."

/-- The error text thrown when the client object was never constructed. -/
def clientErrorText : String :=
  "OpenAI client is not initialized. Please check your API key configuration."

/-- The error-classification chain of the catch block of
`handleSendMessage`. -/
def errorTextOf (e : JsError) : String :=
  if jsIncludes e.message "API key" then e.message
  else if e.status == some 401 then
    "Authentication failed. Please check your OpenAI API key is valid and has sufficient credits."
  else if e.status == some 429 then
    "Rate limit exceeded. Please wait a moment and try again."
  else if e.status == some 500 then
    "OpenAI server error. Please try again later."
  else if jsIncludes e.message "fetch" then
    "Network error. Please check your internet connection."
  else if !e.message.isEmpty then "Error: " ++ e.message
  else "Sorry, I encountered an error."

/-- Outcome of one `handleSendMessage` turn: whether the chat-completion
endpoint was reached, and the messages appended to the transcript. -/
structure SendOutcome where
  networkCalled : Bool
  appended : List Message
deriving Repr, DecidableEq

/-- `handleSendMessage(text)` of the error-handling `App.tsx` variant,
with the effects as parameters: `apiKey` is the configured credential,
`clientInit` whether the module-level client was constructed, and
`netResult` the outcome the chat-completion call would produce (an error,
or an optional completion text). -/
def handleSendMessage (apiKey : Option String) (clientInit : Bool)
    (kg : KnowledgeGraph) (netResult : Except JsError (Option String))
    (text : String) (now : Nat) : SendOutcome :=
  let userMessage : Message := { id := toString now, text := text, isUser := true }
  let reachesNetwork :=
    !keyMissing apiKey && strStartsWith (apiKey.getD "") "sk-" && clientInit
  let tryResult : Except JsError Message :=
    if keyMissing apiKey then .error { message := configErrorText }
    else if !strStartsWith (apiKey.getD "") "sk-" then .error { message := formatErrorText }
    else if !clientInit then .error { message := clientErrorText }
    else
      let res := queryKnowledgeGraph kg text
      match netResult with
      | .error e => .error e
      | .ok content =>
        .ok { id := toString (now + 1),
              text := content.getD "Sorry, I couldn't generate a response.",
              isUser := false,
              graphData := some res }
  match tryResult with
  | .ok m => { networkCalled := reachesNetwork, appended := [userMessage, m] }
  | .error e =>
    { networkCalled := reachesNetwork,
      appended := [userMessage,
        { id := toString (now + 1), text := errorTextOf e, isUser := false }] }

/-! ### Invariants of the selection state -/

/-- Every collected id is the id of some collected node. -/
def IdsCovered (st : SelState) : Prop :=
  ∀ i ∈ st.ids, ∃ n ∈ st.nodes, n.id = i

/-- Every collected node has its id in the collected id set. -/
def IdsComplete (st : SelState) : Prop :=
  ∀ n ∈ st.nodes, n.id ∈ st.ids

/-- The collected node list carries pairwise distinct ids, and the id set
records all of them. -/
def NodupIds (st : SelState) : Prop :=
  (st.nodes.map Node.id).Nodup ∧ IdsComplete st

theorem foldl_pres {σ α : Type _} (P : σ → Prop) (f : σ → α → σ)
    (h : ∀ s a, P s → P (f s a)) :
    ∀ (l : List α) (s : σ), P s → P (l.foldl f s) := by
  intro l
  induction l with
  | nil => intro s hs; exact hs
  | cons a t ih => intro s hs; exact ih (f s a) (h s a hs)

theorem foldl_extend {σ α : Type _} (g : σ → List Node) (f : σ → α → σ)
    (h : ∀ s a, ∃ suf, g (f s a) = g s ++ suf) :
    ∀ (l : List α) (s : σ), ∃ suf, g (l.foldl f s) = g s ++ suf := by
  intro l
  induction l with
  | nil => intro s; exact ⟨[], by simp⟩
  | cons a t ih =>
    intro s
    obtain ⟨s1, hs1⟩ := h s a
    obtain ⟨s2, hs2⟩ := ih (f s a)
    exact ⟨s1 ++ s2, by simp [hs2, hs1]⟩

theorem idsCovered_empty : IdsCovered SelState.empty := by
  intro i hi; simp [SelState.empty] at hi

theorem idsCovered_addNode {st : SelState} {n : Node} (h : IdsCovered st) :
    IdsCovered (st.addNode n) := by
  intro i hi
  simp only [SelState.addNode, List.mem_insert_iff] at hi
  rcases hi with hi | hi
  · exact ⟨n, by simp [SelState.addNode, hi]⟩
  · obtain ⟨m, hm, hmi⟩ := h i hi
    exact ⟨m, by simp [SelState.addNode, hm], hmi⟩

theorem idsComplete_empty : IdsComplete SelState.empty := by
  intro n hn; simp [SelState.empty] at hn

theorem idsComplete_addNode {st : SelState} {n : Node} (h : IdsComplete st) :
    IdsComplete (st.addNode n) := by
  intro m hm
  simp only [SelState.addNode, List.mem_append, List.mem_singleton] at hm
  rcases hm with hm | hm
  · exact List.mem_insert_iff.mpr (Or.inr (h m hm))
  · exact List.mem_insert_iff.mpr (Or.inl (by rw [hm]))

theorem nodupIds_empty : NodupIds SelState.empty :=
  ⟨by simp [SelState.empty], idsComplete_empty⟩

theorem contains_eq_mem (l : List String) (a : String) :
    l.contains a = true ↔ a ∈ l := by
  simp [List.contains]

theorem nodupIds_addNode {st : SelState} {n : Node} (h : NodupIds st)
    (hn : n.id ∉ st.ids) : NodupIds (st.addNode n) := by
  obtain ⟨hnd, hcomp⟩ := h
  refine ⟨?_, idsComplete_addNode hcomp⟩
  simp only [SelState.addNode, List.map_append, List.map_cons, List.map_nil]
  rw [List.nodup_append]
  refine ⟨hnd, List.nodup_singleton _, ?_⟩
  intro i hi hj
  simp only [List.mem_singleton] at hj
  subst hj
  obtain ⟨m, hm, hmi⟩ := List.mem_map.mp hi
  exact hn (hmi ▸ hcomp m hm)

theorem not_mem_of_contains_false {l : List String} {a : String}
    (h : l.contains a = false) : a ∉ l := by
  intro hmem
  rw [(contains_eq_mem l a).mpr hmem] at h
  exact Bool.true_eq_false.mp h

theorem idsCovered_cappedScanStep (kg : KnowledgeGraph) (wt : List String)
    (cap : Nat) (gene : Node) (p : SelState × (String → Nat)) (r : Edge)
    (h : IdsCovered p.1) : IdsCovered (cappedScanStep kg wt cap gene p r).1 := by
  obtain ⟨st, counts⟩ := p
  unfold cappedScanStep
  cases connectedTo kg gene r with
  | none => exact h
  | some cn =>
    simp only
    split
    · split
      · exact idsCovered_addNode h
      · exact h
    · exact h

theorem nodupIds_cappedScanStep (kg : KnowledgeGraph) (wt : List String)
    (cap : Nat) (gene : Node) (p : SelState × (String → Nat)) (r : Edge)
    (h : NodupIds p.1) : NodupIds (cappedScanStep kg wt cap gene p r).1 := by
  obtain ⟨st, counts⟩ := p
  unfold cappedScanStep
  cases connectedTo kg gene r with
  | none => exact h
  | some cn =>
    simp only
    split
    · next hg =>
      split
      · rw [Bool.and_eq_true, Bool.not_eq_true'] at hg
        exact nodupIds_addNode h (not_mem_of_contains_false hg.2)
      · exact h
    · exact h

theorem idsCovered_anchoredStep (kg : KnowledgeGraph) (target : Node)
    (wt : List String) (p : SelState × (String → Nat)) (r : Edge)
    (h : IdsCovered p.1) : IdsCovered (anchoredStep kg target wt p r).1 := by
  obtain ⟨st, counts⟩ := p
  unfold anchoredStep
  cases connectedTo kg target r with
  | none => exact h
  | some cn =>
    simp only
    split
    · split
      · exact idsCovered_addNode h
      · exact h
    · exact h

theorem nodupIds_anchoredStep (kg : KnowledgeGraph) (target : Node)
    (wt : List String) (p : SelState × (String → Nat)) (r : Edge)
    (h : NodupIds p.1) : NodupIds (anchoredStep kg target wt p r).1 := by
  obtain ⟨st, counts⟩ := p
  unfold anchoredStep
  cases connectedTo kg target r with
  | none => exact h
  | some cn =>
    simp only
    split
    · next hg =>
      split
      · rw [Bool.and_eq_true, Bool.not_eq_true'] at hg
        exact nodupIds_addNode h (not_mem_of_contains_false hg.2)
      · exact h
    · exact h

theorem idsCovered_directExpandStep (kg : KnowledgeGraph) (st : SelState)
    (r : Edge) (h : IdsCovered st) : IdsCovered (directExpandStep kg st r) := by
  have h1 : IdsCovered { st with rels := st.rels ++ [r] } := h
  unfold directExpandStep
  split
  · dsimp only
    split
    · cases findNodeById kg r.target with
      | none => exact h1
      | some tn => exact idsCovered_addNode h1
    · exact h1
  · exact h

theorem nodupIds_directExpandStep (kg : KnowledgeGraph) (st : SelState)
    (r : Edge) (h : NodupIds st) : NodupIds (directExpandStep kg st r) := by
  have h1 : NodupIds { st with rels := st.rels ++ [r] } := h
  unfold directExpandStep
  split
  · dsimp only
    split
    · next hg =>
      rw [Bool.and_eq_true, Bool.not_eq_true'] at hg
      cases hfind : findNodeById kg r.target with
      | none => exact h1
      | some tn =>
        have htn : tn.id = r.target := by
          have hp := List.find?_some hfind
          exact eq_of_beq hp
        exact nodupIds_addNode h1 (htn ▸ not_mem_of_contains_false hg.2)
    · exact h1
  · exact h

theorem idsCovered_biomarkerStep (geneNames : List String)
    (st : SelState) (node : Node) (h : IdsCovered st) :
    IdsCovered (if node.type == "biomarker" && geneNames.contains (strUpper node.label)
        && !st.ids.contains node.id then st.addNode node else st) := by
  split
  · exact idsCovered_addNode h
  · exact h

theorem nodupIds_biomarkerStep (geneNames : List String)
    (st : SelState) (node : Node) (h : NodupIds st) :
    NodupIds (if node.type == "biomarker" && geneNames.contains (strUpper node.label)
        && !st.ids.contains node.id then st.addNode node else st) := by
  split
  · next hg =>
    rw [Bool.and_eq_true, Bool.not_eq_true'] at hg
    exact nodupIds_addNode h (not_mem_of_contains_false hg.2)
  · exact h

theorem foldl_addNode_nodes (l : List Node) :
    ∀ st : SelState, (l.foldl SelState.addNode st).nodes = st.nodes ++ l := by
  induction l with
  | nil => intro st; simp
  | cons a t ih =>
    intro st
    simp only [List.foldl_cons, ih, SelState.addNode]
    simp

theorem idsCovered_foldl_addNode (l : List Node) (st : SelState)
    (h : IdsCovered st) : IdsCovered (l.foldl SelState.addNode st) :=
  foldl_pres IdsCovered SelState.addNode (fun _ _ hs => idsCovered_addNode hs) l st h

theorem nodupIds_foldl_addNode (l : List Node) :
    ∀ st : SelState, NodupIds st → (l.map Node.id).Nodup →
      (∀ x ∈ l, x.id ∉ st.ids) → NodupIds (l.foldl SelState.addNode st) := by
  induction l with
  | nil => intro st h _ _; exact h
  | cons a t ih =>
    intro st h hnd hfresh
    simp only [List.map_cons, List.nodup_cons] at hnd
    refine ih (st.addNode a) (nodupIds_addNode h (hfresh a (by simp))) hnd.2 ?_
    intro x hx hmem
    rcases List.mem_insert_iff.mp hmem with heq | hmem'
    · exact hnd.1 (heq ▸ List.mem_map_of_mem Node.id hx)
    · exact hfresh x (List.mem_cons_of_mem a hx) hmem'

theorem idsCovered_hsgrScan (kg : KnowledgeGraph) (genes : List Node)
    (wt : List String) (cap : Nat) (st0 : SelState) (h : IdsCovered st0) :
    IdsCovered (hsgrScan kg genes wt cap st0) :=
  foldl_pres (fun p => IdsCovered p.1) _
    (fun s gene hs => foldl_pres (fun p => IdsCovered p.1) _
      (fun p r hp => idsCovered_cappedScanStep kg wt cap gene p r hp) kg.edges s hs)
    genes (st0, fun _ => 0) h

theorem nodupIds_hsgrScan (kg : KnowledgeGraph) (genes : List Node)
    (wt : List String) (cap : Nat) (st0 : SelState) (h : NodupIds st0) :
    NodupIds (hsgrScan kg genes wt cap st0) :=
  foldl_pres (fun p => NodupIds p.1) _
    (fun s gene hs => foldl_pres (fun p => NodupIds p.1) _
      (fun p r hp => nodupIds_cappedScanStep kg wt cap gene p r hp) kg.edges s hs)
    genes (st0, fun _ => 0) h

theorem idsCovered_addLimitedConnections (kg : KnowledgeGraph) (gene : Node)
    (wt : List String) (cap : Nat) (st0 : SelState) (h : IdsCovered st0) :
    IdsCovered (addLimitedConnections kg gene wt cap st0) :=
  foldl_pres (fun p => IdsCovered p.1) _
    (fun p r hp => idsCovered_cappedScanStep kg wt cap gene p r hp)
    kg.edges (st0, fun _ => 0) h

theorem nodupIds_addLimitedConnections (kg : KnowledgeGraph) (gene : Node)
    (wt : List String) (cap : Nat) (st0 : SelState) (h : NodupIds st0) :
    NodupIds (addLimitedConnections kg gene wt cap st0) :=
  foldl_pres (fun p => NodupIds p.1) _
    (fun p r hp => nodupIds_cappedScanStep kg wt cap gene p r hp)
    kg.edges (st0, fun _ => 0) h

theorem idsCovered_addMatchingBiomarkers (kg : KnowledgeGraph)
    (gn : List String) (st : SelState) (h : IdsCovered st) :
    IdsCovered (addMatchingBiomarkers kg gn st) :=
  foldl_pres IdsCovered _ (fun s a hs => idsCovered_biomarkerStep gn s a hs)
    kg.nodes st h

theorem nodupIds_addMatchingBiomarkers (kg : KnowledgeGraph)
    (gn : List String) (st : SelState) (h : NodupIds st) :
    NodupIds (addMatchingBiomarkers kg gn st) :=
  foldl_pres NodupIds _ (fun s a hs => nodupIds_biomarkerStep gn s a hs)
    kg.nodes st h

theorem idsCovered_anchoredScan (kg : KnowledgeGraph) (target : Node)
    (wt : List String) : IdsCovered (anchoredScan kg target wt) :=
  foldl_pres (fun p => IdsCovered p.1) _
    (fun p r hp => idsCovered_anchoredStep kg target wt p r hp)
    kg.edges (SelState.empty, fun _ => 0) idsCovered_empty

theorem nodupIds_anchoredScan (kg : KnowledgeGraph) (target : Node)
    (wt : List String) : NodupIds (anchoredScan kg target wt) :=
  foldl_pres (fun p => NodupIds p.1) _
    (fun p r hp => nodupIds_anchoredStep kg target wt p r hp)
    kg.edges (SelState.empty, fun _ => 0) nodupIds_empty

theorem idsCovered_hsgrBase (kg : KnowledgeGraph) (gn : List String)
    (lim : Bool) : IdsCovered (hsgrBase kg gn lim) :=
  idsCovered_foldl_addNode _ _ idsCovered_empty

theorem nodup_genesToProcess (kg : KnowledgeGraph) (gn : List String)
    (lim : Bool) (h : (kg.nodes.map Node.id).Nodup) :
    ((genesToProcessOf kg gn lim).map Node.id).Nodup := by
  unfold genesToProcessOf targetGenesOf
  split
  · exact List.Nodup.sublist
      (List.Sublist.map Node.id ((List.take_sublist 1 _).trans (List.filter_sublist _))) h
  · exact List.Nodup.sublist (List.Sublist.map Node.id (List.filter_sublist _)) h

theorem nodupIds_hsgrBase (kg : KnowledgeGraph) (gn : List String)
    (lim : Bool) (h : (kg.nodes.map Node.id).Nodup) :
    NodupIds (hsgrBase kg gn lim) :=
  nodupIds_foldl_addNode _ _ nodupIds_empty (nodup_genesToProcess kg gn lim h)
    (fun x _ hmem => by simp [SelState.empty] at hmem)

theorem idsCovered_hsgrFallback (kg : KnowledgeGraph) (gn wt : List String)
    (lim : Bool) : IdsCovered (hsgrFallback kg gn wt lim) := by
  unfold hsgrFallback
  split
  · split
    · split
      · exact idsCovered_hsgrBase kg gn lim
      · exact idsCovered_addLimitedConnections _ _ _ _ _
          (idsCovered_addNode (idsCovered_hsgrBase kg gn lim))
    · exact idsCovered_hsgrBase kg gn lim
  · exact idsCovered_hsgrBase kg gn lim

theorem hsgrBase_of_no_targets (kg : KnowledgeGraph) (gn : List String)
    (lim : Bool) (h : targetGenesOf kg gn = []) :
    hsgrBase kg gn lim = SelState.empty := by
  unfold hsgrBase genesToProcessOf
  rw [h]
  cases lim <;> simp

theorem nodupIds_hsgrFallback (kg : KnowledgeGraph) (gn wt : List String)
    (lim : Bool) (h : (kg.nodes.map Node.id).Nodup) :
    NodupIds (hsgrFallback kg gn wt lim) := by
  unfold hsgrFallback
  split
  · next hlen =>
    have hempty : targetGenesOf kg gn = [] := List.length_eq_zero.mp hlen
    split
    · split
      · exact nodupIds_hsgrBase kg gn lim h
      · rw [hsgrBase_of_no_targets kg gn lim hempty]
        exact nodupIds_addLimitedConnections _ _ _ _ _
          (nodupIds_addNode nodupIds_empty (by simp [SelState.empty]))
    · exact nodupIds_hsgrBase kg gn lim h
  · exact nodupIds_hsgrBase kg gn lim h

theorem idsCovered_hsgrCollected (kg : KnowledgeGraph) (gn wt : List String)
    (lim : Bool) : IdsCovered (hsgrCollected kg gn wt lim) := by
  unfold hsgrCollected
  exact idsCovered_hsgrScan _ _ _ _ _ (by
    split
    · exact idsCovered_addMatchingBiomarkers _ _ _ (idsCovered_hsgrFallback kg gn wt lim)
    · exact idsCovered_hsgrFallback kg gn wt lim)

theorem nodupIds_hsgrCollected (kg : KnowledgeGraph) (gn wt : List String)
    (lim : Bool) (h : (kg.nodes.map Node.id).Nodup) :
    NodupIds (hsgrCollected kg gn wt lim) := by
  unfold hsgrCollected
  exact nodupIds_hsgrScan _ _ _ _ _ (by
    split
    · exact nodupIds_addMatchingBiomarkers _ _ _ (nodupIds_hsgrFallback kg gn wt lim h)
    · exact nodupIds_hsgrFallback kg gn wt lim h)

theorem idsCovered_anchoredState (kg : KnowledgeGraph) (q : String)
    (intent : QueryIntent) : IdsCovered (anchoredState kg q intent) := by
  unfold anchoredState
  split
  · split
    · dsimp only
      split
      · exact idsCovered_addNode (idsCovered_anchoredScan _ _ _)
      · exact idsCovered_anchoredScan _ _ _
    · exact idsCovered_empty
  · exact idsCovered_empty

theorem nodupIds_anchoredState (kg : KnowledgeGraph) (q : String)
    (intent : QueryIntent) : NodupIds (anchoredState kg q intent) := by
  unfold anchoredState
  split
  · split
    · dsimp only
      split
      · next hg =>
        rw [Bool.and_eq_true, Bool.not_eq_true'] at hg
        exact nodupIds_addNode (nodupIds_anchoredScan _ _ _)
          (not_mem_of_contains_false hg.2)
      · exact nodupIds_anchoredScan _ _ _
    · exact nodupIds_empty
  · exact nodupIds_empty

theorem idsCovered_findDirectMatches (kg : KnowledgeGraph) (q : String) :
    IdsCovered (findDirectMatches kg q) := by
  unfold findDirectMatches
  dsimp only
  split
  · exact foldl_pres IdsCovered _ (fun s r hs => idsCovered_directExpandStep kg s r hs)
      kg.edges _ (idsCovered_foldl_addNode _ _ idsCovered_empty)
  · exact idsCovered_foldl_addNode _ _ idsCovered_empty

theorem nodupIds_directBase (kg : KnowledgeGraph) (q : String)
    (h : (kg.nodes.map Node.id).Nodup) :
    NodupIds ((directLabelMatches kg q).foldl SelState.addNode SelState.empty) :=
  nodupIds_foldl_addNode _ _ nodupIds_empty
    (List.Nodup.sublist (List.Sublist.map Node.id (List.filter_sublist _)) h)
    (fun x _ hmem => by simp [SelState.empty] at hmem)

theorem nodupIds_findDirectMatches (kg : KnowledgeGraph) (q : String)
    (h : (kg.nodes.map Node.id).Nodup) : NodupIds (findDirectMatches kg q) := by
  unfold findDirectMatches
  dsimp only
  split
  · exact foldl_pres NodupIds _ (fun s r hs => nodupIds_directExpandStep kg s r hs)
      kg.edges _ (nodupIds_directBase kg q h)
  · exact nodupIds_directBase kg q h

theorem mkResult_closure (st : SelState) (h : IdsCovered st) :
    ∀ e ∈ (mkResult st).relations,
      (∃ n ∈ (mkResult st).nodes, n.id = e.source) ∧
      (∃ n ∈ (mkResult st).nodes, n.id = e.target) := by
  intro e he
  simp only [mkResult, List.mem_filter] at he
  obtain ⟨_, hcond⟩ := he
  rw [Bool.and_eq_true] at hcond
  exact ⟨h e.source ((contains_eq_mem _ _).mp hcond.1),
         h e.target ((contains_eq_mem _ _).mp hcond.2)⟩

theorem hsgr_closure (kg : KnowledgeGraph) (gn wt : List String) (lim : Bool) :
    ∀ e ∈ (handleSpecificGeneRequest kg gn wt lim).relations,
      (∃ n ∈ (handleSpecificGeneRequest kg gn wt lim).nodes, n.id = e.source) ∧
      (∃ n ∈ (handleSpecificGeneRequest kg gn wt lim).nodes, n.id = e.target) := by
  unfold handleSpecificGeneRequest
  split
  · intro e he
    simp at he
  · exact mkResult_closure _ (idsCovered_hsgrCollected kg gn wt lim)

/-- C1: every edge returned by `queryKnowledgeGraph` (and, on the explicit
gene path, by `handleSpecificGeneRequest`) has both its source and its
target id carried by a node of the returned node set: dangling edges are
filtered out before return. -/
theorem c1_referential_closure :
    (∀ (kg : KnowledgeGraph) (q : String),
      ∀ e ∈ (queryKnowledgeGraph kg q).relations,
        (∃ n ∈ (queryKnowledgeGraph kg q).nodes, n.id = e.source) ∧
        (∃ n ∈ (queryKnowledgeGraph kg q).nodes, n.id = e.target)) ∧
    (∀ (kg : KnowledgeGraph) (gn wt : List String) (lim : Bool),
      ∀ e ∈ (handleSpecificGeneRequest kg gn wt lim).relations,
        (∃ n ∈ (handleSpecificGeneRequest kg gn wt lim).nodes, n.id = e.source) ∧
        (∃ n ∈ (handleSpecificGeneRequest kg gn wt lim).nodes, n.id = e.target)) := by
  constructor
  · intro kg q
    unfold queryKnowledgeGraph
    dsimp only
    split
    · exact hsgr_closure kg _ _ _
    · exact mkResult_closure _ (by
        split
        · exact idsCovered_findDirectMatches kg _
        · exact idsCovered_anchoredState kg _ _)
  · exact hsgr_closure

/-- C1 witness: a concrete query whose returned subgraph has an edge, and
that edge's endpoints are returned nodes. -/
theorem c1_referential_closure_witness :
    (⟨"gene:EGFR", "gene:KRAS", "interacts_with"⟩ : Edge) ∈
      (queryKnowledgeGraph
        ⟨"", [⟨"gene:EGFR", "EGFR", "gene", "", none, none⟩,
              ⟨"gene:KRAS", "KRAS", "gene", "", none, none⟩],
         [⟨"gene:EGFR", "gene:KRAS", "interacts_with"⟩]⟩
        "one gene egfr kras").relations ∧
    ((∃ n ∈ (queryKnowledgeGraph
        ⟨"", [⟨"gene:EGFR", "EGFR", "gene", "", none, none⟩,
              ⟨"gene:KRAS", "KRAS", "gene", "", none, none⟩],
         [⟨"gene:EGFR", "gene:KRAS", "interacts_with"⟩]⟩
        "one gene egfr kras").nodes, n.id = "gene:EGFR") ∧
     (∃ n ∈ (queryKnowledgeGraph
        ⟨"", [⟨"gene:EGFR", "EGFR", "gene", "", none, none⟩,
              ⟨"gene:KRAS", "KRAS", "gene", "", none, none⟩],
         [⟨"gene:EGFR", "gene:KRAS", "interacts_with"⟩]⟩
        "one gene egfr kras").nodes, n.id = "gene:KRAS")) :=
  ⟨by decide,
   c1_referential_closure.1
     ⟨"", [⟨"gene:EGFR", "EGFR", "gene", "", none, none⟩,
           ⟨"gene:KRAS", "KRAS", "gene", "", none, none⟩],
      [⟨"gene:EGFR", "gene:KRAS", "interacts_with"⟩]⟩
     "one gene egfr kras"
     ⟨"gene:EGFR", "gene:KRAS", "interacts_with"⟩ (by decide)⟩

/-- C10: assuming the loaded graph's nodes carry pairwise distinct ids,
the node list returned by `queryKnowledgeGraph` contains no two nodes
with the same id. -/
theorem c10_no_duplicate_ids (kg : KnowledgeGraph) (q : String)
    (h : (kg.nodes.map Node.id).Nodup) :
    ((queryKnowledgeGraph kg q).nodes.map Node.id).Nodup := by
  unfold queryKnowledgeGraph
  dsimp only
  split
  · unfold handleSpecificGeneRequest
    split
    · simp
    · exact (nodupIds_hsgrCollected kg _ _ _ h).1
  · refine (?_ : NodupIds _).1
    split
    · exact nodupIds_findDirectMatches kg _ h
    · exact nodupIds_anchoredState kg _ _

/-- C10 witness: a concrete graph with distinct ids whose query result
has pairwise distinct node ids. -/
theorem c10_no_duplicate_ids_witness :
    ((⟨"", [⟨"gene:EGFR", "EGFR", "gene", "", none, none⟩,
            ⟨"drug:D1", "Erlotinib", "drug", "", none, none⟩],
       [⟨"gene:EGFR", "drug:D1", "targeted_by"⟩]⟩ : KnowledgeGraph).nodes.map
        Node.id).Nodup ∧
    (((queryKnowledgeGraph
        ⟨"", [⟨"gene:EGFR", "EGFR", "gene", "", none, none⟩,
              ⟨"drug:D1", "Erlotinib", "drug", "", none, none⟩],
         [⟨"gene:EGFR", "drug:D1", "targeted_by"⟩]⟩
        "drugs for egfr").nodes.map Node.id).Nodup) :=
  ⟨by decide,
   c10_no_duplicate_ids
     ⟨"", [⟨"gene:EGFR", "EGFR", "gene", "", none, none⟩,
           ⟨"drug:D1", "Erlotinib", "drug", "", none, none⟩],
      [⟨"gene:EGFR", "drug:D1", "targeted_by"⟩]⟩
     "drugs for egfr" (by decide)⟩

/-- Count of returned nodes of a given type. -/
def countType (ns : List Node) (t : String) : Nat :=
  (ns.filter fun n => n.type == t).length

/-- Example graph in which the first anchor gene's drug neighbors exhaust
the shared per-type counter before the second anchor gene is scanned. -/
def kgSharedCaps : KnowledgeGraph :=
  { meta := "",
    nodes := [⟨"gene:EGFR", "EGFR", "gene", "", none, none⟩,
              ⟨"gene:KRAS", "KRAS", "gene", "", none, none⟩,
              ⟨"drug:D1", "Erlotinib", "drug", "", none, none⟩,
              ⟨"drug:D2", "Gefitinib", "drug", "", none, none⟩,
              ⟨"drug:D3", "Osimertinib", "drug", "", none, none⟩,
              ⟨"drug:D4", "Sotorasib", "drug", "", none, none⟩],
    edges := [⟨"gene:EGFR", "drug:D1", "targeted_by"⟩,
              ⟨"gene:EGFR", "drug:D2", "targeted_by"⟩,
              ⟨"gene:EGFR", "drug:D3", "targeted_by"⟩,
              ⟨"gene:KRAS", "drug:D4", "targeted_by"⟩] }

/-- C6: the per-type connection counters of the explicit-gene path are
shared across all anchor genes: on this input the drug neighbor of the
second anchor gene (KRAS's Sotorasib) is excluded because the first
anchor gene's three drug matches already exhausted the cap of 3. -/
theorem c6_shared_type_counters :
    (queryKnowledgeGraph kgSharedCaps "what drugs for egfr and kras").nodes.map Node.id
      = ["gene:EGFR", "gene:KRAS", "drug:D1", "drug:D2", "drug:D3"] ∧
    (⟨"gene:KRAS", "drug:D4", "targeted_by"⟩ : Edge) ∈ kgSharedCaps.edges ∧
    (∃ n ∈ kgSharedCaps.nodes, n.id = "drug:D4" ∧ n.type = "drug") ∧
    "drug" ∈ (analyzeQueryIntent (strLower "what drugs for egfr and kras")).wantedTypes ∧
    (analyzeQueryIntent (strLower "what drugs for egfr and kras")).specificGenes
      = ["EGFR", "KRAS"] ∧
    countType (queryKnowledgeGraph kgSharedCaps "what drugs for egfr and kras").nodes
      "drug" = 3 := by
  decide

/-- Example graph holding a lone BRCA1 gene node, resolvable through the
static disease-to-gene table. -/
def kgBrca : KnowledgeGraph :=
  { meta := "", nodes := [⟨"gene:BRCA1", "BRCA1", "gene", "", none, none⟩], edges := [] }

/-- C7: claimed scenario `"one gene related to breast cancer"` with BRCA1
present and resolvable through the static disease-to-gene table.  The
table itself would resolve BRCA1 for this query text, yet the returned
subgraph is empty: the table lookup lives on the explicit-gene path,
which is only entered when a known gene symbol occurs in the query. -/
theorem c7_single_gene_fallback_unreachable :
    (∃ n ∈ kgBrca.nodes, n.type = "gene" ∧ n.label = "BRCA1") ∧
    (findGenesRelatedToContext kgBrca "one gene related to breast cancer").map Node.label
      = ["BRCA1"] ∧
    (analyzeQueryIntent (strLower "one gene related to breast cancer")).limitToOne = true ∧
    (analyzeQueryIntent (strLower "one gene related to breast cancer")).specificGenes = [] ∧
    (queryKnowledgeGraph kgBrca "one gene related to breast cancer").nodes = [] := by
  decide

/-- State-threaded variant of the explicit-gene path: the method reads
`this.kg` and never assigns to it, so the embedding of its statements
returns the stored graph as it was. -/
def handleSpecificGeneRequestST (kg : KnowledgeGraph) (geneNames wantedTypes : List String)
    (limitToOne : Bool) : QueryResult × KnowledgeGraph :=
  (handleSpecificGeneRequest kg geneNames wantedTypes limitToOne, kg)

/-- State-threaded variant of `queryKnowledgeGraph`. -/
def queryKnowledgeGraphST (kg : KnowledgeGraph) (userQuery : String) :
    QueryResult × KnowledgeGraph :=
  let intent := analyzeQueryIntent (strLower userQuery)
  if 0 < intent.specificGenes.length then
    handleSpecificGeneRequestST kg intent.specificGenes intent.wantedTypes intent.limitToOne
  else
    (queryKnowledgeGraph kg userQuery, kg)

/-- C9: a query leaves the loaded knowledge graph unchanged — the stored
node list, edge list and metadata after the call (on either path) are the
ones loaded at start. -/
theorem c9_graph_read_only (kg : KnowledgeGraph) (q : String)
    (gn wt : List String) (lim : Bool) :
    ((queryKnowledgeGraphST kg q).2.nodes = kg.nodes ∧
     (queryKnowledgeGraphST kg q).2.edges = kg.edges ∧
     (queryKnowledgeGraphST kg q).2.meta = kg.meta) ∧
    (handleSpecificGeneRequestST kg gn wt lim).2 = kg := by
  constructor
  · unfold queryKnowledgeGraphST
    dsimp only
    split
    · exact ⟨rfl, rfl, rfl⟩
    · exact ⟨rfl, rfl, rfl⟩
  · rfl

theorem errorTextOf_config :
    errorTextOf { message := configErrorText } = configErrorText := by
  decide

/-- C8: with an absent or placeholder credential, a send-message turn
never reaches the chat-completion endpoint and appends exactly the user
message plus a non-user message carrying the configuration-error text and
no attached subgraph. -/
theorem c8_missing_key_short_circuits (apiKey : Option String) (clientInit : Bool)
    (kg : KnowledgeGraph) (netResult : Except JsError (Option String))
    (text : String) (now : Nat)
    (h : apiKey = none ∨ apiKey = some placeholderKey) :
    (handleSendMessage apiKey clientInit kg netResult text now).networkCalled = false ∧
    (handleSendMessage apiKey clientInit kg netResult text now).appended.map
        (fun m => (m.isUser, m.text, m.graphData))
      = [(true, text, none), (false, configErrorText, none)] := by
  have hk : keyMissing apiKey = true := by
    rcases h with h | h <;> subst h <;> decide
  unfold handleSendMessage
  simp [hk, errorTextOf_config]

/-- C8 witness: the theorem applied to an absent key at concrete inputs. -/
theorem c8_missing_key_short_circuits_witness :
    ((none : Option String) = none ∨ (none : Option String) = some placeholderKey) ∧
    ((handleSendMessage none true kgBrca (.ok (some "hi")) "What is EGFR?" 5).networkCalled
        = false ∧
     (handleSendMessage none true kgBrca (.ok (some "hi")) "What is EGFR?" 5).appended.map
        (fun m => (m.isUser, m.text, m.graphData))
      = [(true, "What is EGFR?", none), (false, configErrorText, none)]) :=
  ⟨Or.inl rfl,
   c8_missing_key_short_circuits none true kgBrca (.ok (some "hi")) "What is EGFR?" 5
     (Or.inl rfl)⟩

/-- C2 counterexample: `"tell me about brca1"` matches the allow-list
symbol BRCA1 and contains no type keyword, yet `wantedTypes` is exactly
`["gene"]`, not the claimed four-type default: matching a gene symbol
already pushes `gene`, so the four-type defaulting branch is unreachable
on this hypothesis. -/
theorem c2_counterexample :
    0 < (matchedKnownGenes "tell me about brca1").length ∧
    jsIncludes "tell me about brca1" "gene" = false ∧
    jsIncludes "tell me about brca1" "drug" = false ∧
    jsIncludes "tell me about brca1" "treatment" = false ∧
    jsIncludes "tell me about brca1" "therapy" = false ∧
    jsIncludes "tell me about brca1" "pathway" = false ∧
    jsIncludes "tell me about brca1" "signaling" = false ∧
    jsIncludes "tell me about brca1" "marker" = false ∧
    (analyzeQueryIntent "tell me about brca1").wantedTypes
      ≠ ["gene", "pathway", "drug", "biomarker"] ∧
    (analyzeQueryIntent "tell me about brca1").wantedTypes = ["gene"] := by
  decide

theorem take_one_length_pos {α : Type _} (l : List α) (h : 0 < l.length) :
    0 < (l.take 1).length := by
  cases l with
  | nil => simp at h
  | cons a t => simp

theorem specificGenes_pos (q : String) (hg : 0 < (matchedKnownGenes q).length) :
    0 < (specificGenesOf q).length := by
  unfold specificGenesOf
  split
  · exact take_one_length_pos _ hg
  · exact hg

/-- C2 amended: when at least one known gene symbol is matched and no
type keyword of the drug / pathway / biomarker families occurs,
`wantedTypes` equals exactly `["gene"]` (the gene-symbol match adds
`gene`, which makes the four-type defaulting branch unreachable). -/
theorem c2_gene_only_wanted_types (q : String)
    (hg : 0 < (matchedKnownGenes q).length)
    (h1 : jsIncludes q "drug" = false) (h2 : jsIncludes q "drugs" = false)
    (h3 : jsIncludes q "treatment" = false) (h4 : jsIncludes q "therapy" = false)
    (h5 : jsIncludes q "associated drugs" = false)
    (h6 : jsIncludes q "pathway" = false) (h7 : jsIncludes q "pathways" = false)
    (h8 : jsIncludes q "signaling" = false)
    (h9 : jsIncludes q "associated pathways" = false)
    (h10 : jsIncludes q "biomarker" = false) (h11 : jsIncludes q "biomarkers" = false)
    (h12 : jsIncludes q "marker" = false)
    (h13 : jsIncludes q "associated biomarkers" = false) :
    (analyzeQueryIntent q).wantedTypes = ["gene"] := by
  have hsg := specificGenes_pos q hg
  show (wantedTypesOf q).1 = ["gene"]
  unfold wantedTypesOf
  simp [hsg, h1, h2, h3, h4, h5, h6, h7, h8, h9, h10, h11, h12, h13]

/-- C2 amended witness: the amended theorem applied to the
counterexample's query. -/
theorem c2_gene_only_wanted_types_witness :
    0 < (matchedKnownGenes "tell me about brca1").length ∧
    (analyzeQueryIntent "tell me about brca1").wantedTypes = ["gene"] :=
  ⟨by decide,
   c2_gene_only_wanted_types "tell me about brca1" (by decide) (by decide) (by decide)
     (by decide) (by decide) (by decide) (by decide) (by decide) (by decide) (by decide)
     (by decide) (by decide) (by decide) (by decide)⟩

/-- C4: a query that names no allow-list gene, matches no anchor entity,
and has no node label (of length > 2) occurring in it produces the empty
node and edge sets, and the formatter on that empty result emits the
fixed no-information sentence. -/
theorem c4_no_match_empty_and_fixed_sentence (kg : KnowledgeGraph) (q ctx : String)
    (h1 : specificGenesOf (strLower q) = [])
    (h2 : findTargetEntity kg (strLower q) (analyzeQueryIntent (strLower q)) = none)
    (h3 : directLabelMatches kg (strLower q) = []) :
    queryKnowledgeGraph kg q = { nodes := [], relations := [] } ∧
    formatKnowledgeForAI (queryKnowledgeGraph kg q).nodes
        (queryKnowledgeGraph kg q).relations ctx
      = "No relevant information found in the knowledge graph." := by
  have hcond : ¬ 0 < (analyzeQueryIntent (strLower q)).specificGenes.length := by
    have hsg : (analyzeQueryIntent (strLower q)).specificGenes = [] := h1
    rw [hsg]
    simp
  have ha : anchoredState kg (strLower q) (analyzeQueryIntent (strLower q))
      = SelState.empty := by
    unfold anchoredState
    rw [h2]
  have hd : findDirectMatches kg (strLower q) = SelState.empty := by
    unfold findDirectMatches
    rw [h3]
    rfl
  have hres : queryKnowledgeGraph kg q = { nodes := [], relations := [] } := by
    unfold queryKnowledgeGraph
    dsimp only
    rw [if_neg hcond, ha, hd]
    rfl
  refine ⟨hres, ?_⟩
  rw [hres]
  rfl

/-- C4 witness: a concrete graph and query with no gene symbol, no anchor
and no label match. -/
theorem c4_no_match_empty_and_fixed_sentence_witness :
    (specificGenesOf (strLower "hello world") = [] ∧
     findTargetEntity kgBrca (strLower "hello world")
       (analyzeQueryIntent (strLower "hello world")) = none ∧
     directLabelMatches kgBrca (strLower "hello world") = []) ∧
    (queryKnowledgeGraph kgBrca "hello world" = { nodes := [], relations := [] } ∧
     formatKnowledgeForAI (queryKnowledgeGraph kgBrca "hello world").nodes
        (queryKnowledgeGraph kgBrca "hello world").relations "context header"
      = "No relevant information found in the knowledge graph.") :=
  ⟨⟨by decide, by decide, by decide⟩,
   c4_no_match_empty_and_fixed_sentence kgBrca "hello world" "context header"
     (by decide) (by decide) (by decide)⟩

theorem cappedScanStep_nodes_extend (kg : KnowledgeGraph) (wt : List String)
    (cap : Nat) (gene : Node) (p : SelState × (String → Nat)) (r : Edge) :
    ∃ suf, (cappedScanStep kg wt cap gene p r).1.nodes = p.1.nodes ++ suf := by
  obtain ⟨st, counts⟩ := p
  unfold cappedScanStep
  cases connectedTo kg gene r with
  | none => exact ⟨[], by simp⟩
  | some cn =>
    simp only
    split
    · split
      · exact ⟨[cn], rfl⟩
      · exact ⟨[], by simp⟩
    · exact ⟨[], by simp⟩

theorem hsgrScan_nodes_extend (kg : KnowledgeGraph) (genes : List Node)
    (wt : List String) (cap : Nat) (st0 : SelState) :
    ∃ suf, (hsgrScan kg genes wt cap st0).nodes = st0.nodes ++ suf := by
  unfold hsgrScan
  exact foldl_extend (fun p => p.1.nodes) _
    (fun s gene => foldl_extend (fun p => p.1.nodes) _
      (fun p r => cappedScanStep_nodes_extend kg wt cap gene p r) kg.edges s)
    genes (st0, fun _ => 0)

theorem addMatchingBiomarkers_nodes_extend (kg : KnowledgeGraph) (gn : List String)
    (st : SelState) :
    ∃ suf, (addMatchingBiomarkers kg gn st).nodes = st.nodes ++ suf := by
  unfold addMatchingBiomarkers
  refine foldl_extend SelState.nodes _ ?_ kg.nodes st
  intro s a
  dsimp only
  split
  · exact ⟨[a], rfl⟩
  · exact ⟨[], by simp⟩

/-- Example graph with two connected allow-list genes. -/
def kgTwoGenes : KnowledgeGraph :=
  { meta := "",
    nodes := [⟨"gene:EGFR", "EGFR", "gene", "", none, none⟩,
              ⟨"gene:KRAS", "KRAS", "gene", "", none, none⟩],
    edges := [⟨"gene:EGFR", "gene:KRAS", "interacts_with"⟩] }

/-- C3 counterexample: a singular query matching two allow-list symbols,
both resolving to gene nodes, yet the returned subgraph holds two gene
nodes (the kept anchor plus a connected gene-typed neighbor admitted by
the scan), not exactly one. -/
theorem c3_counterexample :
    (analyzeQueryIntent (strLower "one gene egfr kras")).limitToOne = true ∧
    1 < (matchedKnownGenes (strLower "one gene egfr kras")).length ∧
    (∃ n ∈ kgTwoGenes.nodes, n.type = "gene" ∧
       strUpper n.label ∈ matchedKnownGenes (strLower "one gene egfr kras")) ∧
    countType (queryKnowledgeGraph kgTwoGenes "one gene egfr kras").nodes "gene" = 2 := by
  decide

/-- C3 amended: on a singular query matching more than one allow-list
symbol, when the first matched symbol (in allow-list order) resolves to a
gene node, exactly one anchor gene is processed and it heads the returned
node list, labelled (case-insensitively) by that first symbol; further
gene-typed nodes may still follow as connected neighbors, and nothing is
anchored when the first matched symbol does not resolve. -/
theorem c3_first_symbol_single_anchor (kg : KnowledgeGraph) (q : String)
    (hlim : limitToOneOf (strLower q) = true)
    (hmulti : 1 < (matchedKnownGenes (strLower q)).length)
    (hres : targetGenesOf kg ((matchedKnownGenes (strLower q)).take 1) ≠ []) :
    (genesToProcessOf kg (specificGenesOf (strLower q))
        (limitToOneOf (strLower q))).length = 1 ∧
    ∃ g, (queryKnowledgeGraph kg q).nodes.head? = some g ∧
      g.type = "gene" ∧
      (matchedKnownGenes (strLower q)).head? = some (strUpper g.label) := by
  obtain ⟨a, t, hm⟩ : ∃ a t, matchedKnownGenes (strLower q) = a :: t := by
    cases hm : matchedKnownGenes (strLower q) with
    | nil => rw [hm] at hmulti; simp at hmulti
    | cons a t => exact ⟨a, t, rfl⟩
  have htake : (matchedKnownGenes (strLower q)).take 1 = [a] := by rw [hm]; rfl
  have hsg : specificGenesOf (strLower q) = [a] := by
    unfold specificGenesOf
    rw [hlim, htake]
    simp [hmulti]
  rw [htake] at hres
  obtain ⟨g0, rest, hg⟩ : ∃ g0 rest, targetGenesOf kg [a] = g0 :: rest := by
    cases hgt : targetGenesOf kg [a] with
    | nil => exact absurd hgt hres
    | cons g0 rest => exact ⟨g0, rest, rfl⟩
  have hgtp : genesToProcessOf kg [a] true = [g0] := by
    unfold genesToProcessOf
    rw [hg]
    rfl
  have hg0mem : g0 ∈ targetGenesOf kg [a] := by
    rw [hg]; exact List.mem_cons_self g0 rest
  unfold targetGenesOf at hg0mem
  have hg0prop := List.of_mem_filter hg0mem
  rw [Bool.and_eq_true] at hg0prop
  have hty : g0.type = "gene" := eq_of_beq hg0prop.1
  have hlab : strUpper g0.label = a := by
    have hmem := (contains_eq_mem _ _).mp hg0prop.2
    simpa using hmem
  have e1 : (analyzeQueryIntent (strLower q)).specificGenes = [a] := hsg
  have e2 : (analyzeQueryIntent (strLower q)).limitToOne = true := hlim
  have hcond : 0 < (analyzeQueryIntent (strLower q)).specificGenes.length := by
    rw [e1]; simp
  have hquery : queryKnowledgeGraph kg q
      = handleSpecificGeneRequest kg [a]
          (analyzeQueryIntent (strLower q)).wantedTypes true := by
    unfold queryKnowledgeGraph
    dsimp only
    rw [if_pos hcond, e1, e2]
  have hfb : hsgrFallback kg [a] (analyzeQueryIntent (strLower q)).wantedTypes true
      = hsgrBase kg [a] true := by
    unfold hsgrFallback
    rw [hg]
    simp
  have hbase : (hsgrBase kg [a] true).nodes = [g0] := by
    unfold hsgrBase
    rw [foldl_addNode_nodes, hgtp]
    rfl
  have hbranch : ∃ s, (if (analyzeQueryIntent (strLower q)).wantedTypes.contains "biomarker"
      then addMatchingBiomarkers kg [a]
        (hsgrFallback kg [a] (analyzeQueryIntent (strLower q)).wantedTypes true)
      else hsgrFallback kg [a] (analyzeQueryIntent (strLower q)).wantedTypes true).nodes
        = g0 :: s := by
    split
    · obtain ⟨s, hs⟩ := addMatchingBiomarkers_nodes_extend kg [a]
        (hsgrFallback kg [a] (analyzeQueryIntent (strLower q)).wantedTypes true)
      exact ⟨s, by rw [hs, hfb, hbase]; rfl⟩
    · exact ⟨[], by rw [hfb, hbase]⟩
  have hcoll : ∃ s, (hsgrCollected kg [a]
      (analyzeQueryIntent (strLower q)).wantedTypes true).nodes = g0 :: s := by
    unfold hsgrCollected
    dsimp only
    obtain ⟨s1, hs1⟩ := hbranch
    obtain ⟨s2, hs2⟩ := hsgrScan_nodes_extend kg (genesToProcessOf kg [a] true)
      (analyzeQueryIntent (strLower q)).wantedTypes (if true then 2 else 3)
      (if (analyzeQueryIntent (strLower q)).wantedTypes.contains "biomarker"
       then addMatchingBiomarkers kg [a]
         (hsgrFallback kg [a] (analyzeQueryIntent (strLower q)).wantedTypes true)
       else hsgrFallback kg [a] (analyzeQueryIntent (strLower q)).wantedTypes true)
    exact ⟨s1 ++ s2, by rw [hs2, hs1]; rfl⟩
  constructor
  · rw [hsg, hlim, hgtp]
    rfl
  · refine ⟨g0, ?_, hty, ?_⟩
    · rw [hquery]
      unfold handleSpecificGeneRequest
      split
      · next hcf =>
        rw [Bool.and_eq_true] at hcf
        have hz := of_decide_eq_true hcf.1
        rw [hg] at hz
        simp at hz
      · obtain ⟨s, hs⟩ := hcoll
        show (hsgrCollected kg [a]
          (analyzeQueryIntent (strLower q)).wantedTypes true).nodes.head? = some g0
        rw [hs]
        rfl
    · rw [hm, hlab]
      rfl

/-- C3 amended witness: the amended theorem applied to the two-gene graph
and the singular two-symbol query. -/
theorem c3_first_symbol_single_anchor_witness :
    (limitToOneOf (strLower "one gene egfr kras") = true ∧
     1 < (matchedKnownGenes (strLower "one gene egfr kras")).length ∧
     targetGenesOf kgTwoGenes
       ((matchedKnownGenes (strLower "one gene egfr kras")).take 1) ≠ []) ∧
    ((genesToProcessOf kgTwoGenes (specificGenesOf (strLower "one gene egfr kras"))
        (limitToOneOf (strLower "one gene egfr kras"))).length = 1 ∧
     ∃ g, (queryKnowledgeGraph kgTwoGenes "one gene egfr kras").nodes.head? = some g ∧
       g.type = "gene" ∧
       (matchedKnownGenes (strLower "one gene egfr kras")).head?
         = some (strUpper g.label)) :=
  ⟨⟨by decide, by decide, by decide⟩,
   c3_first_symbol_single_anchor kgTwoGenes "one gene egfr kras"
     (by decide) (by decide) (by decide)⟩

theorem countType_append_single (l : List Node) (n : Node) (t : String) :
    countType (l ++ [n]) t = countType l t + (if n.type = t then 1 else 0) := by
  by_cases h : n.type = t
  · simp [countType, List.filter_append, h]
  · simp [countType, List.filter_append, h]

theorem cappedScanStep_count (kg : KnowledgeGraph) (wt : List String) (cap : Nat)
    (gene : Node) (t : String) (base : Nat) (p : SelState × (String → Nat)) (r : Edge)
    (h : countType p.1.nodes t = base + p.2 t ∧ p.2 t ≤ cap) :
    countType (cappedScanStep kg wt cap gene p r).1.nodes t
        = base + (cappedScanStep kg wt cap gene p r).2 t ∧
      (cappedScanStep kg wt cap gene p r).2 t ≤ cap := by
  obtain ⟨st, counts⟩ := p
  obtain ⟨heq, hle⟩ := h
  dsimp only at heq hle
  unfold cappedScanStep
  cases connectedTo kg gene r with
  | none => exact ⟨heq, hle⟩
  | some cn =>
    simp only
    split
    · split
      · next hcap =>
        constructor
        · show countType (st.nodes ++ [cn]) t = base + bump counts cn.type t
          rw [countType_append_single]
          unfold bump
          by_cases ht : t = cn.type
          · rw [if_pos ht.symm, if_pos ht, heq, ht]
            omega
          · rw [if_neg (fun hx => ht hx.symm), if_neg ht, heq]
            omega
        · show bump counts cn.type t ≤ cap
          unfold bump
          by_cases ht : t = cn.type
          · rw [if_pos ht]
            omega
          · rw [if_neg ht]
            exact hle
      · exact ⟨heq, hle⟩
    · exact ⟨heq, hle⟩

theorem hsgrScan_count (kg : KnowledgeGraph) (genes : List Node) (wt : List String)
    (cap : Nat) (st0 : SelState) (t : String) :
    countType (hsgrScan kg genes wt cap st0).nodes t ≤ countType st0.nodes t + cap := by
  have key := foldl_pres
    (fun p : SelState × (String → Nat) =>
      countType p.1.nodes t = countType st0.nodes t + p.2 t ∧ p.2 t ≤ cap)
    _
    (fun s gene hs => foldl_pres _ _
      (fun p r hp => cappedScanStep_count kg wt cap gene t (countType st0.nodes t) p r hp)
      kg.edges s hs)
    genes (st0, fun _ => 0) ⟨by simp, Nat.zero_le cap⟩
  unfold hsgrScan
  rw [key.1]
  exact Nat.add_le_add_left key.2 _

theorem anchoredStep_count (kg : KnowledgeGraph) (target : Node) (wt : List String)
    (t : String) (p : SelState × (String → Nat)) (r : Edge)
    (h : countType p.1.nodes t = p.2 t ∧ p.2 t ≤ 4) :
    countType (anchoredStep kg target wt p r).1.nodes t
        = (anchoredStep kg target wt p r).2 t ∧
      (anchoredStep kg target wt p r).2 t ≤ 4 := by
  obtain ⟨st, counts⟩ := p
  obtain ⟨heq, hle⟩ := h
  dsimp only at heq hle
  unfold anchoredStep
  cases connectedTo kg target r with
  | none => exact ⟨heq, hle⟩
  | some cn =>
    simp only
    split
    · split
      · next hcap =>
        rw [Bool.and_eq_true] at hcap
        have hlt : counts cn.type < 4 := of_decide_eq_true hcap.1
        constructor
        · show countType (st.nodes ++ [cn]) t = bump counts cn.type t
          rw [countType_append_single]
          unfold bump
          by_cases ht : t = cn.type
          · rw [if_pos ht.symm, if_pos ht, heq, ht]
          · rw [if_neg (fun hx => ht hx.symm), if_neg ht, heq]
            omega
        · show bump counts cn.type t ≤ 4
          unfold bump
          by_cases ht : t = cn.type
          · rw [if_pos ht]
            omega
          · rw [if_neg ht]
            exact hle
      · exact ⟨heq, hle⟩
    · exact ⟨heq, hle⟩

theorem anchoredScan_count (kg : KnowledgeGraph) (target : Node)
    (wt : List String) (t : String) :
    countType (anchoredScan kg target wt).nodes t ≤ 4 := by
  have key := foldl_pres
    (fun p : SelState × (String → Nat) =>
      countType p.1.nodes t = p.2 t ∧ p.2 t ≤ 4)
    _
    (fun p r hp => anchoredStep_count kg target wt t p r hp)
    kg.edges (SelState.empty, fun _ => 0) ⟨by simp [SelState.empty, countType], Nat.zero_le 4⟩
  unfold anchoredScan
  rw [key.1]
  exact key.2

theorem directExpandStep_len (kg : KnowledgeGraph) (bound : Nat) (st : SelState)
    (r : Edge) (h : st.nodes.length ≤ max bound 8) :
    (directExpandStep kg st r).nodes.length ≤ max bound 8 := by
  unfold directExpandStep
  split
  · next hg =>
    rw [Bool.and_eq_true] at hg
    have hlt : st.nodes.length < 8 := of_decide_eq_true hg.2
    dsimp only
    split
    · cases findNodeById kg r.target with
      | none => exact h
      | some tn =>
        show (st.nodes ++ [tn]).length ≤ max bound 8
        rw [List.length_append, List.length_singleton]
        exact le_trans (by omega) (Nat.le_max_right bound 8)
    · exact h
  · exact h

theorem findDirectMatches_len (kg : KnowledgeGraph) (q : String) :
    (findDirectMatches kg q).nodes.length ≤ max (directLabelMatches kg q).length 8 := by
  have hbase : ((directLabelMatches kg q).foldl SelState.addNode SelState.empty).nodes.length
      = (directLabelMatches kg q).length := by
    rw [foldl_addNode_nodes]
    rfl
  unfold findDirectMatches
  dsimp only
  split
  · refine foldl_pres
      (fun st => st.nodes.length ≤ max (directLabelMatches kg q).length 8) _
      (fun s r hs => directExpandStep_len kg _ s r hs) kg.edges
      ((directLabelMatches kg q).foldl SelState.addNode SelState.empty) ?_
    show (List.foldl SelState.addNode SelState.empty
      (directLabelMatches kg q)).nodes.length ≤ max (directLabelMatches kg q).length 8
    rw [hbase]
    exact Nat.le_max_left _ _
  · rw [hbase]
    exact Nat.le_max_left _ _

/-- Example graph for the explicit-gene path cap violation: four anchor
genes, all of type gene, exceed the claimed per-type cap of 3. -/
def kgFourGenes : KnowledgeGraph :=
  { meta := "",
    nodes := [⟨"g1", "EGFR", "gene", "", none, none⟩,
              ⟨"g2", "KRAS", "gene", "", none, none⟩,
              ⟨"g3", "MET", "gene", "", none, none⟩,
              ⟨"g4", "BRAF", "gene", "", none, none⟩],
    edges := [] }

/-- Example graph for the fallback-path cap violation: nine label matches
exceed the claimed 8-node total. -/
def kgNineLabels : KnowledgeGraph :=
  { meta := "",
    nodes := [⟨"n1", "aaa1", "gene", "", none, none⟩,
              ⟨"n2", "aaa2", "gene", "", none, none⟩,
              ⟨"n3", "aaa3", "gene", "", none, none⟩,
              ⟨"n4", "aaa4", "gene", "", none, none⟩,
              ⟨"n5", "aaa5", "gene", "", none, none⟩,
              ⟨"n6", "aaa6", "gene", "", none, none⟩,
              ⟨"n7", "aaa7", "gene", "", none, none⟩,
              ⟨"n8", "aaa8", "gene", "", none, none⟩,
              ⟨"n9", "aaa9", "gene", "", none, none⟩],
    edges := [] }

/-- C5 counterexample: (a) on the explicit-gene path, the four anchor
genes alone put the gene-type count at 4, above the claimed cap of 3;
(b) on the fallback path, nine direct label matches yield nine returned
nodes, above the claimed total of 8. -/
theorem c5_counterexample :
    ((analyzeQueryIntent (strLower "egfr kras braf met")).limitToOne = false ∧
     0 < (analyzeQueryIntent (strLower "egfr kras braf met")).specificGenes.length ∧
     countType (queryKnowledgeGraph kgFourGenes "egfr kras braf met").nodes "gene" = 4) ∧
    ((analyzeQueryIntent
        (strLower "aaa1 aaa2 aaa3 aaa4 aaa5 aaa6 aaa7 aaa8 aaa9")).specificGenes = [] ∧
     findTargetEntity kgNineLabels
        (strLower "aaa1 aaa2 aaa3 aaa4 aaa5 aaa6 aaa7 aaa8 aaa9")
        (analyzeQueryIntent (strLower "aaa1 aaa2 aaa3 aaa4 aaa5 aaa6 aaa7 aaa8 aaa9"))
        = none ∧
     (queryKnowledgeGraph kgNineLabels
        "aaa1 aaa2 aaa3 aaa4 aaa5 aaa6 aaa7 aaa8 aaa9").nodes.length = 9) := by
  decide

/-- C5 amended: the per-type caps bound the cap-guarded connected-node
additions, not the whole returned subgraph: the explicit-gene scan adds
at most `cap` nodes of each type (cap = 2 when `singleResultOnly`, else
3) beyond the anchors and same-name biomarkers it starts from; the
anchored scan collects at most 4 nodes per type before the anchor itself
is appended; and the fallback path bounds only its edge-expansion phase
by 8 total, so its result size is at most the larger of 8 and the number
of direct label matches. -/
theorem c5_caps_bound_connected_additions :
    (∀ (kg : KnowledgeGraph) (genes : List Node) (wt : List String) (cap : Nat)
       (st0 : SelState) (t : String),
       countType (hsgrScan kg genes wt cap st0).nodes t ≤ countType st0.nodes t + cap) ∧
    (∀ (kg : KnowledgeGraph) (target : Node) (wt : List String) (t : String),
       countType (anchoredScan kg target wt).nodes t ≤ 4) ∧
    (∀ (kg : KnowledgeGraph) (q : String),
       (findDirectMatches kg q).nodes.length
         ≤ max (directLabelMatches kg q).length 8) :=
  ⟨hsgrScan_count, anchoredScan_count, findDirectMatches_len⟩

end OncoGraph
